import Mathlib

/-!
Shallow embedding of the Salgsmester portfolio-rebalancing engine
(`src/salgsmester/`): data models (`data_models.py`), risk module
(`risk.py`), momentum strategy (`strategy.py`), portfolio manager
(`portfolio_manager.py`) and the fee estimators of the Nordnet client
(`nordnet_client.py`).

Modelling conventions:
- Python `float` monetary and percentage values are embedded as `ℚ`
  (the claims under study concern control flow, ordering and exact
  arithmetic identities, not binary floating-point rounding);
- `datetime` / `timedelta` are embedded as `Int` (a linear time scale);
- Python exceptions are embedded as an explicit `PyError` value:
  fallible steps return `Except PyError _` or pair their result with
  `Option PyError`;
- the mutation of `self` / of the `Portfolio` object is embedded as
  explicit state passing;
- Python's stable `list.sort(key=..., reverse=True)` / `sorted(...)` is
  embedded as `List.mergeSort` with the boolean relation
  "key of the left element ≥ key of the right element", which has the
  same ordering and the same stability guarantee.
-/

namespace Salgsmester

/-- Python exception kinds that the embedded code can raise. -/
inductive PyError where
  | typeError
  | attributeError
  | zeroDivisionError
deriving DecidableEq, Repr

/-! ## data_models.py -/

/-- Model of `InstrumentSnapshot` from `data_models.py`: market data for one
instrument. -/
structure InstrumentSnapshot where
  symbol : String
  name : String
  last_price : ℚ
  daily_change_pct : ℚ
  weekly_change_pct : ℚ
  volatility : ℚ
  sector : Option String
  timestamp : Int
deriving DecidableEq, Repr

/-- Model of `InstrumentSnapshot.expected_short_term_growth`:
`momentum = daily*0.4 + weekly*0.6`, scaled by `max(1.0 - volatility, 0.1)`. -/
def expected_short_term_growth (inst : InstrumentSnapshot) : ℚ :=
  let momentum := inst.daily_change_pct * 0.4 + inst.weekly_change_pct * 0.6
  let risk_adjustment := max (1 - inst.volatility) 0.1
  momentum * risk_adjustment

/-- Model of `Position` from `data_models.py`: one open holding. -/
structure Position where
  instrument : InstrumentSnapshot
  quantity : ℚ
  entry_price : ℚ
  entry_time : Int
deriving DecidableEq, Repr

/-- Model of `Position.market_value`. -/
def market_value (p : Position) : ℚ :=
  p.instrument.last_price * p.quantity

/-- Model of `Position.unrealised_return_pct`: `0.0` when `entry_price == 0`,
otherwise `(last_price - entry_price) / entry_price`. -/
def unrealised_return_pct (p : Position) : ℚ :=
  if p.entry_price = 0 then 0
  else (p.instrument.last_price - p.entry_price) / p.entry_price

/-- Model of `Portfolio` from `data_models.py`. -/
structure Portfolio where
  positions : List Position
  cash : ℚ
  last_trade_time : Option Int
deriving DecidableEq, Repr

/-- Model of `Portfolio.remove_position`, embedded on the position list: find the
first position whose instrument symbol matches, pop it and return it
together with the remaining list; `none` when no position matches. -/
def remove_position (symbol : String) : List Position → Option (Position × List Position)
  | [] => none
  | p :: ps =>
    if p.instrument.symbol = symbol then some (p, ps)
    else
      match remove_position symbol ps with
      | none => none
      | some (q, ps') => some (q, p :: ps')

/-! ## config.py -/

/-- Model of `StrategyTargets` from `config.py` (defaults: weekly growth target
`0.05`, max volatility `0.25`, one trade per week, one-day cadence). -/
structure StrategyTargets where
  weekly_growth_target : ℚ
  max_portfolio_volatility : ℚ
  min_trades_per_week : Int
  rebalance_cadence : Int
deriving DecidableEq, Repr

/-- Model of `FeeStructure` from `config.py`: fixed fee plus variable rate on the
gross notional. -/
structure FeeStructure where
  fixed_fee : ℚ
  variable_fee_rate : ℚ
deriving DecidableEq, Repr

/-! ## risk.py -/

/-- Model of `RiskMetrics` from `risk.py`. -/
structure RiskMetrics where
  volatility : ℚ
  downside_risk : ℚ
  exposure_concentration : ℚ
deriving DecidableEq, Repr

/-- Per-position net value from `estimate_portfolio_risk`:
`max(gross_value - (fixed_fee + gross_value*variable_fee_rate), 0.0)`. -/
def position_net_value (fees : FeeStructure) (p : Position) : ℚ :=
  let gross_value := market_value p
  let fee := fees.fixed_fee + gross_value * fees.variable_fee_rate
  max (gross_value - fee) 0

/-- Model of `total_net_value` from `estimate_portfolio_risk`: sum of the
per-position net values plus cash. -/
def total_net_value (pf : Portfolio) (fees : FeeStructure) : ℚ :=
  (pf.positions.map (position_net_value fees)).sum + pf.cash

/-- Python `max(...)` over a list (used on the nonempty weight list). -/
def list_max : List ℚ → ℚ
  | [] => 0
  | x :: xs => xs.foldl max x

/-- Model of `estimate_portfolio_risk` from `risk.py`. -/
def estimate_portfolio_risk (pf : Portfolio) (fees : FeeStructure) : RiskMetrics :=
  if pf.positions.isEmpty then ⟨0, 0, 0⟩
  else
    let volatilities := pf.positions.map (fun p => p.instrument.volatility)
    let net_values := pf.positions.map (position_net_value fees)
    let total := total_net_value pf fees
    if total ≤ 0 then ⟨0, 0, 0⟩
    else
      let weights := net_values.map (fun v => v / total)
      let weighted_volatility := (List.zipWith (fun v w => v * w) volatilities weights).sum
      let downside_components := pf.positions.map (fun p =>
        let gross_value := market_value p
        let fee := fees.fixed_fee + gross_value * fees.variable_fee_rate
        let fee_drag := if gross_value = 0 then 0 else fee / gross_value
        max (-p.instrument.daily_change_pct) 0 + fee_drag)
      let downside := downside_components.sum / (downside_components.length : ℚ)
      let conc := list_max weights
      ⟨weighted_volatility, downside, conc⟩

/-- Model of `score_instrument_risk` from `risk.py` (`notional` defaults to
`10000.0` at the call sites). -/
def score_instrument_risk (inst : InstrumentSnapshot) (fees : FeeStructure)
    (notional : ℚ) : ℚ :=
  let volatility_penalty := inst.volatility
  let downside_buffer := max (-inst.daily_change_pct) 0
  let gross := max notional inst.last_price
  let feeShare := (fees.fixed_fee + gross * fees.variable_fee_rate) / gross
  volatility_penalty + downside_buffer + feeShare

/-- Model of `candidate.sector or "ukjent"` from `diversify_candidates`: Python's
`or` falls through on both `None` and the empty string. -/
def sector_key (c : InstrumentSnapshot) : String :=
  match c.sector with
  | none => "ukjent"
  | some s => if s = "" then "ukjent" else s

/-- Boolean comparison used for the descending stable sorts by
`expected_short_term_growth` (Python `sort(key=..., reverse=True)`). -/
def growth_ge (a b : InstrumentSnapshot) : Bool :=
  decide (expected_short_term_growth b ≤ expected_short_term_growth a)

/-- The greedy admission loop of `diversify_candidates`: the running
`sector_counts` dict is embedded as a total function with default `0`. -/
def diversify_go (max_per_sector : ℕ) (counts : String → ℕ) :
    List InstrumentSnapshot → List InstrumentSnapshot
  | [] => []
  | c :: rest =>
    let sector := sector_key c
    if max_per_sector ≤ counts sector then
      diversify_go max_per_sector counts rest
    else
      c :: diversify_go max_per_sector
        (fun s => if s = sector then counts s + 1 else counts s) rest

/-- Model of `diversify_candidates` from `risk.py` (`max_per_sector` defaults to
`2` at the call sites): stable-sort descending by
`expected_short_term_growth`, then greedily admit while the sector's
admitted count is below the cap. -/
def diversify_candidates (candidates : List InstrumentSnapshot)
    (max_per_sector : ℕ) : List InstrumentSnapshot :=
  diversify_go max_per_sector (fun _ => 0) (candidates.mergeSort growth_ge)

/-- Number of candidates of a list that fall in sector bucket `s`. -/
def sector_count (s : String) (l : List InstrumentSnapshot) : ℕ :=
  l.countP (fun c => sector_key c = s)

/-! ## strategy.py -/

/-- Model of `TradeDecision` from `strategy.py`. -/
structure TradeDecision where
  buy_candidates : List InstrumentSnapshot
  sell_symbols : List String
  reason : String
deriving DecidableEq, Repr

/-- Model of `StrategyContext` from `strategy.py`. -/
structure StrategyContext where
  targets : StrategyTargets
  last_rebalance : Option Int
deriving DecidableEq, Repr

/-- Model of `MomentumGrowthStrategy`: its mutable state (`self.context`) and its
fee structure (`self.fees`). -/
structure MomentumGrowthStrategy where
  context : StrategyContext
  fees : FeeStructure
deriving DecidableEq, Repr

/-- Model of `MomentumGrowthStrategy.should_rebalance`: true when never
rebalanced, or when `now - last_rebalance >= rebalance_cadence`. -/
def should_rebalance (strat : MomentumGrowthStrategy) (now : Int) : Bool :=
  match strat.context.last_rebalance with
  | none => true
  | some t => decide (strat.context.targets.rebalance_cadence ≤ now - t)

/-- Decimal rendering used for the reason string of a full evaluation.
The exact text of Python's `f"{x:.2f}"` float formatting is abstracted:
no claim inspects this string. -/
def format_rat (q : ℚ) : String :=
  toString q

/-- Model of `MomentumGrowthStrategy.evaluate`, with the mutation of
`self.context.last_rebalance` embedded as state passing: the result pairs
the updated strategy with the returned `TradeDecision`. -/
def evaluate (strat : MomentumGrowthStrategy) (now : Int) (portfolio : Portfolio)
    (instruments : List InstrumentSnapshot) : MomentumGrowthStrategy × TradeDecision :=
  if ¬ should_rebalance strat now then
    (strat, ⟨[], [], "Rebalansering ikke nødvendig ennå"⟩)
  else
    let portfolio_risk := estimate_portfolio_risk portfolio strat.fees
    let growth_candidates :=
      (instruments.filter (fun inst => decide (0 < inst.last_price))).mergeSort growth_ge
    let diversified := diversify_candidates growth_candidates 2
    let sell_symbols :=
      (portfolio.positions.filter (fun p =>
        decide (strat.context.targets.weekly_growth_target ≤ unrealised_return_pct p))).map
        (fun p => p.instrument.symbol)
    let max_volatility := strat.context.targets.max_portfolio_volatility
    let filtered := diversified.filter (fun candidate =>
      decide (score_instrument_risk candidate strat.fees 10000 ≤ max_volatility))
    let strat' : MomentumGrowthStrategy :=
      ⟨⟨strat.context.targets, some now⟩, strat.fees⟩
    let reason :=
      "Porteføljevolatilitet: " ++ format_rat portfolio_risk.volatility
        ++ "; Utvalgte kandidater: " ++ toString filtered.length
    (strat', ⟨filtered, sell_symbols, reason⟩)

/-- Model of `MomentumGrowthStrategy.required_weekly_trade`. -/
def required_weekly_trade (_strat : MomentumGrowthStrategy) (now : Int)
    (portfolio : Portfolio) : Bool :=
  match portfolio.last_trade_time with
  | none => true
  | some t => decide ((7 : Int) ≤ now - t)

/-! ## nordnet_client.py (fee estimators and attribute dispatch) -/

/-- Model of `NordnetClient.estimate_trade_fee`: `fixed_fee + gross * variable_fee_rate`. -/
def estimate_trade_fee (fees : FeeStructure) (price quantity : ℚ) : ℚ :=
  let gross := price * quantity
  fees.fixed_fee + gross * fees.variable_fee_rate

/-- Model of `NordnetClient.estimate_total_buy_cost`: gross plus trade fee. -/
def estimate_total_buy_cost (fees : FeeStructure) (price quantity : ℚ) : ℚ :=
  price * quantity + estimate_trade_fee fees price quantity

/-- Model of `NordnetClient.estimate_net_sell_proceeds`: gross minus trade fee,
floored at zero. -/
def estimate_net_sell_proceeds (fees : FeeStructure) (price quantity : ℚ) : ℚ :=
  let gross := price * quantity
  let fee := estimate_trade_fee fees price quantity
  max (gross - fee) 0

/-- The fee-estimation methods that `NordnetClient` defines, as an
attribute table from method name to method body (`nordnet_client.py`
defines exactly `estimate_trade_fee`, `estimate_total_buy_cost` and
`estimate_net_sell_proceeds` as fee estimators). -/
def nordnet_fee_estimators (fees : FeeStructure) : List (String × (ℚ → ℚ → ℚ)) :=
  [("estimate_trade_fee", estimate_trade_fee fees),
   ("estimate_total_buy_cost", estimate_total_buy_cost fees),
   ("estimate_net_sell_proceeds", estimate_net_sell_proceeds fees)]

/-- Python attribute lookup of a fee-estimation method on a
`NordnetClient` instance. -/
def nordnet_lookup (fees : FeeStructure) (attr : String) : Option (ℚ → ℚ → ℚ) :=
  (nordnet_fee_estimators fees).lookup attr

/-- Model of `self.client.estimate_trade_cost(price, quantity)` dispatched on a
`NordnetClient`: attribute lookup, raising `AttributeError` when the
method is not defined. -/
def nordnet_estimate_trade_cost (fees : FeeStructure) (price : ℚ) (quantity : Int) :
    Except PyError ℚ :=
  match nordnet_lookup fees "estimate_trade_cost" with
  | some f => Except.ok (f price (quantity : ℚ))
  | none => Except.error PyError.attributeError

/-! ## portfolio_manager.py -/

/-- Model of `TradeLogEntry` from `portfolio_manager.py`. -/
structure TradeLogEntry where
  timestamp : Int
  action : String
  symbol : String
  quantity : ℚ
  price : ℚ
  note : String
deriving DecidableEq, Repr

/-- An order sent to `NordnetClient.place_order`. -/
structure Order where
  symbol : String
  quantity : ℚ
  side : String
deriving DecidableEq, Repr

/-- The observable state one execution step acts on: the (mutated)
portfolio, the orders placed with the brokerage client so far in this
step, and the trade-log entries appended in this step. -/
structure CycleState where
  portfolio : Portfolio
  orders : List Order
  trade_log : List TradeLogEntry
deriving DecidableEq, Repr

/-- Model of `PortfolioManager._execute_sales`: for each sell symbol, remove the
matching position (a silent no-op when none matches), place a sell
order, append a SELL log entry, and credit `quantity * last_price`
(gross, no fee) to cash.  `remove_position` also stamps
`last_trade_time` on success. -/
def execute_sales (now : Int) : List String → CycleState → CycleState
  | [], st => st
  | symbol :: rest, st =>
    match remove_position symbol st.portfolio.positions with
    | none => execute_sales now rest st
    | some (position, remaining) =>
      let quantity := position.quantity
      let price := position.instrument.last_price
      execute_sales now rest
        ⟨⟨remaining, st.portfolio.cash + quantity * price, some now⟩,
         st.orders ++ [⟨symbol, quantity, "sell"⟩],
         st.trade_log ++ [⟨now, "SELL", symbol, quantity, price, "Måloppnåelse utløste salg"⟩]⟩

/-- Model of `per_trade_budget` from `_execute_purchases`:
`available_cash / max(len(candidate_list), 1)`. -/
def per_trade_budget (available_cash : ℚ) (candidate_count : ℕ) : ℚ :=
  available_cash / ((max candidate_count 1 : ℕ) : ℚ)

/-- Model of `quantity = max(int(per_trade_budget // price), 0)` from
`_execute_purchases` (Python float floor division then truncation of an
already-integral value equals the mathematical floor). -/
def purchase_quantity (budget price : ℚ) : Int :=
  max ⌊budget / price⌋ 0

/-- The candidate loop of `_execute_purchases`.  The brokerage
collaborator's cost estimator `est` is a parameter (the client is
duck-typed); a raised exception aborts the loop and is reported next to
the state reached so far.  `budget // price` raises `ZeroDivisionError`
in Python when `price == 0`. -/
def purchases_go (est : ℚ → Int → Except PyError ℚ) (budget : ℚ) (now : Int) :
    List InstrumentSnapshot → CycleState → CycleState × Option PyError
  | [], st => (st, none)
  | candidate :: rest, st =>
    if budget ≤ 0 then (st, none)
    else if candidate.last_price = 0 then (st, some PyError.zeroDivisionError)
    else
      let price := candidate.last_price
      let quantity := purchase_quantity budget price
      if quantity ≤ 0 then purchases_go est budget now rest st
      else
        match est price quantity with
        | Except.error e => (st, some e)
        | Except.ok total_cost =>
          if st.portfolio.cash < total_cost then purchases_go est budget now rest st
          else
            purchases_go est budget now rest
              ⟨⟨st.portfolio.positions ++ [⟨candidate, (quantity : ℚ), price, now⟩],
                st.portfolio.cash - total_cost,
                some now⟩,
               st.orders ++ [⟨candidate.symbol, (quantity : ℚ), "buy"⟩],
               st.trade_log ++ [⟨now, "BUY", candidate.symbol, (quantity : ℚ), price,
                 "Strategivalg basert på forventet vekst"⟩]⟩

/-- Model of `PortfolioManager._execute_purchases`: skip entirely when available
cash ≤ 0, otherwise split cash evenly into a per-candidate budget and
run the candidate loop. -/
def execute_purchases (est : ℚ → Int → Except PyError ℚ) (now : Int)
    (candidates : List InstrumentSnapshot) (pf : Portfolio) :
    CycleState × Option PyError :=
  let available_cash := pf.cash
  if available_cash ≤ 0 then (⟨pf, [], []⟩, none)
  else
    let budget := per_trade_budget available_cash candidates.length
    purchases_go est budget now candidates ⟨pf, [], []⟩

/-- A positional argument of a `MomentumGrowthStrategy(...)` call. -/
inductive StrategyCtorArg where
  | targetsArg (t : StrategyTargets)
  | feesArg (f : FeeStructure)

/-- Python positional-argument binding for
`MomentumGrowthStrategy.__init__(self, targets, fees)`: both `targets`
and `fees` are required positional parameters, so any call that does not
supply exactly these two arguments raises `TypeError`. -/
def call_momentum_growth_strategy :
    List StrategyCtorArg → Except PyError MomentumGrowthStrategy
  | [StrategyCtorArg.targetsArg t, StrategyCtorArg.feesArg f] =>
    Except.ok ⟨⟨t, none⟩, f⟩
  | _ => Except.error PyError.typeError

/-- Model of `PortfolioManager`: client, strategy, fees and the trade log.  The
brokerage client is duck-typed, so its type is a parameter. -/
structure PortfolioManager (Client : Type) where
  client : Client
  strategy : MomentumGrowthStrategy
  fees : FeeStructure
  trade_log : List TradeLogEntry

/-- Model of `PortfolioManager.__init__`: stores the client, evaluates
`MomentumGrowthStrategy(targets)` — a call with a single positional
argument — stores the fees and starts an empty trade log. -/
def portfolio_manager_init {Client : Type} (client : Client)
    (targets : StrategyTargets) (fees : FeeStructure) :
    Except PyError (PortfolioManager Client) :=
  match call_momentum_growth_strategy [StrategyCtorArg.targetsArg targets] with
  | Except.error e => Except.error e
  | Except.ok strat => Except.ok ⟨client, strat, fees, []⟩

/-! ## Concrete sample values (used to instantiate theorems) -/

/-- Build an instrument snapshot with the fields the claims exercise. -/
def mk_inst (sym : String) (price daily weekly vol : ℚ)
    (sector : Option String) : InstrumentSnapshot :=
  ⟨sym, sym, price, daily, weekly, vol, sector, 0⟩

/-- The default fee structure of `config.py`. -/
def fees_sample : FeeStructure := ⟨29, 0.00055⟩

/-- The default strategy targets of `config.py` (cadence: one day). -/
def targets_sample : StrategyTargets := ⟨0.05, 0.25, 1, 1⟩

/-- A cost estimator that never raises, wrapped for the duck-typed
`estimate_trade_cost` collaborator slot. -/
def pure_est (f : ℚ → Int → ℚ) : ℚ → Int → Except PyError ℚ :=
  fun price quantity => Except.ok (f price quantity)

/-! # Theorems -/

/-- C10: for every `Position` whose `entry_price` is `0`,
`unrealised_return_pct` returns exactly `0` (no exception); for every
other `Position` it equals `(last_price - entry_price) / entry_price`,
so the division-by-zero branch is unreachable. -/
theorem unrealised_return_pct_spec (p : Position) :
    (p.entry_price = 0 → unrealised_return_pct p = 0) ∧
    (p.entry_price ≠ 0 →
      unrealised_return_pct p
        = (p.instrument.last_price - p.entry_price) / p.entry_price) := by
  constructor <;> intro h <;> simp [unrealised_return_pct, h]

/-- Witness for C10: a zero-entry position yields `0`, a `100 → 120`
position yields `(120 - 100) / 100`. -/
theorem unrealised_return_pct_spec_witness :
    unrealised_return_pct ⟨mk_inst "AAA" 120 0 0 0 none, 1, 0, 0⟩ = 0 ∧
    unrealised_return_pct ⟨mk_inst "AAA" 120 0 0 0 none, 1, 100, 0⟩
      = (120 - 100) / 100 := by
  constructor
  · exact (unrealised_return_pct_spec _).1 rfl
  · have h := (unrealised_return_pct_spec
      ⟨mk_inst "AAA" 120 0 0 0 none, 1, 100, 0⟩).2 (by norm_num)
    simpa [mk_inst] using h

/-- C2: for every client, strategy-targets and fee-structure argument,
constructing a `PortfolioManager` raises `TypeError`, because `__init__`
calls `MomentumGrowthStrategy(targets)` with a single positional
argument while `MomentumGrowthStrategy.__init__` requires both `targets`
and `fees`; consequently no constructed manager is ever produced. -/
theorem portfolio_manager_init_type_error {Client : Type} (client : Client)
    (targets : StrategyTargets) (fees : FeeStructure) :
    portfolio_manager_init client targets fees
      = Except.error PyError.typeError := rfl

/-- C6: `estimate_portfolio_risk` returns all-zero metrics whenever the
portfolio holds no positions, and whenever the total net value (sum of
fee-adjusted position net values, floored at zero, plus cash) is `≤ 0`;
no exception is raised in either case. -/
theorem estimate_portfolio_risk_zero_cases (pf : Portfolio) (fees : FeeStructure) :
    (pf.positions = [] → estimate_portfolio_risk pf fees = ⟨0, 0, 0⟩) ∧
    (total_net_value pf fees ≤ 0 → estimate_portfolio_risk pf fees = ⟨0, 0, 0⟩) := by
  constructor
  · intro h
    simp [estimate_portfolio_risk, h]
  · intro h
    by_cases hp : pf.positions.isEmpty
    · simp [estimate_portfolio_risk, hp]
    · simp [estimate_portfolio_risk, hp, h]

/-- Witness for C6: the empty portfolio with positive cash, and a
one-position portfolio whose heavily negative cash makes the total net
value nonpositive, both give all-zero metrics. -/
theorem estimate_portfolio_risk_zero_cases_witness :
    estimate_portfolio_risk ⟨[], 100, none⟩ fees_sample = ⟨0, 0, 0⟩ ∧
    estimate_portfolio_risk
      ⟨[⟨mk_inst "AAA" 100 0 0 0 none, 1, 100, 0⟩], -1000, none⟩ fees_sample
      = ⟨0, 0, 0⟩ := by
  constructor
  · exact (estimate_portfolio_risk_zero_cases _ _).1 rfl
  · exact (estimate_portfolio_risk_zero_cases _ _).2 (by
      norm_num [total_net_value, position_net_value, market_value, mk_inst,
        fees_sample])

/-- C9: a sell symbol that matches no held position is a silent no-op:
no order is placed, no trade-log entry appended, the portfolio (cash,
positions, last-trade time) is untouched, and execution continues with
the remaining sell symbols. -/
theorem execute_sales_stale_noop (now : Int) (symbol : String)
    (rest : List String) (st : CycleState)
    (h : remove_position symbol st.portfolio.positions = none) :
    execute_sales now (symbol :: rest) st = execute_sales now rest st := by
  simp [execute_sales, h]

/-- Witness for C9: selling `"AAA"` out of a portfolio holding only
`"BBB"` changes nothing. -/
theorem execute_sales_stale_noop_witness :
    execute_sales 0 ["AAA"]
        ⟨⟨[⟨mk_inst "BBB" 50 0 0 0 none, 2, 40, 0⟩], 100, none⟩, [], []⟩
      = execute_sales 0 []
        ⟨⟨[⟨mk_inst "BBB" 50 0 0 0 none, 2, 40, 0⟩], 100, none⟩, [], []⟩ := by
  exact execute_sales_stale_noop 0 "AAA" [] _ (by simp [remove_position, mk_inst])

/-- C8: selling a held position credits exactly
`quantity * last_price` — the gross proceeds, with no fee subtracted —
to portfolio cash, in contrast with buy execution, which debits the
fee-inclusive total cost reported by the collaborator's estimator. -/
theorem execute_sales_credits_gross (now : Int) (symbol : String)
    (pf : Portfolio) (p : Position) (rest : List Position)
    (h : remove_position symbol pf.positions = some (p, rest)) :
    (execute_sales now [symbol] ⟨pf, [], []⟩).portfolio.cash
        = pf.cash + p.quantity * p.instrument.last_price ∧
    ∀ (f : ℚ → Int → ℚ) (c : InstrumentSnapshot) (pf' : Portfolio),
      0 < pf'.cash → c.last_price ≠ 0 →
      0 < purchase_quantity (per_trade_budget pf'.cash 1) c.last_price →
      f c.last_price (purchase_quantity (per_trade_budget pf'.cash 1) c.last_price)
          ≤ pf'.cash →
      (execute_purchases (pure_est f) now [c] pf').1.portfolio.cash
        = pf'.cash
          - f c.last_price (purchase_quantity (per_trade_budget pf'.cash 1) c.last_price) := by
  constructor
  · simp [execute_sales, h]
  · intro f c pf' hcash hprice hqty haff
    have hbudget : 0 < per_trade_budget pf'.cash 1 := by
      simpa [per_trade_budget] using hcash
    simp only [execute_purchases, List.length_cons, List.length_nil, zero_add]
    rw [if_neg (not_le.mpr hcash)]
    simp only [purchases_go, pure_est]
    rw [if_neg (not_le.mpr hbudget), if_neg hprice, if_neg (not_le.mpr hqty),
      if_neg (not_lt.mpr haff)]

/-- Witness for C8: a 2-share position at last price 50 credits exactly
100 on sale; a single buy candidate at 100 with cash 1000 debits the
estimator's fee-inclusive total. -/
theorem execute_sales_credits_gross_witness :
    (execute_sales 0 ["BBB"]
        ⟨⟨[⟨mk_inst "BBB" 50 0 0 0 none, 2, 40, 0⟩], 100, none⟩, [], []⟩).portfolio.cash
      = 100 + 2 * 50 ∧
    (execute_purchases
        (pure_est (fun price quantity => estimate_total_buy_cost fees_sample price (quantity : ℚ))) 0
        [mk_inst "CCC" 150 0 0 0 none] ⟨[], 1000, none⟩).1.portfolio.cash
      = 1000 - estimate_total_buy_cost fees_sample 150
          ((purchase_quantity (per_trade_budget 1000 1) 150 : Int) : ℚ) := by
  have h := execute_sales_credits_gross 0 "BBB"
    ⟨[⟨mk_inst "BBB" 50 0 0 0 none, 2, 40, 0⟩], 100, none⟩
    ⟨mk_inst "BBB" 50 0 0 0 none, 2, 40, 0⟩ []
    (by simp [remove_position, mk_inst])
  constructor
  · simpa [mk_inst] using h.1
  · have h2 := h.2
      (fun price quantity => estimate_total_buy_cost fees_sample price (quantity : ℚ))
      (mk_inst "CCC" 150 0 0 0 none) ⟨[], 1000, none⟩
      (by norm_num)
      (by norm_num [mk_inst])
      (by norm_num [purchase_quantity, per_trade_budget, mk_inst])
      (by norm_num [purchase_quantity, per_trade_budget, mk_inst,
        estimate_total_buy_cost, estimate_trade_fee, fees_sample])
    simpa [mk_inst] using h2

/-- C7: on the rebalancing path, `sell_symbols` consists of exactly the
symbols of held positions whose unrealised return is `≥` the weekly
growth target (the boundary is inclusive), for every fee structure and
risk outcome; a position exactly at the target is included. -/
theorem evaluate_sell_symbols (strat : MomentumGrowthStrategy) (now : Int)
    (pf : Portfolio) (instruments : List InstrumentSnapshot)
    (h : should_rebalance strat now = true) :
    (∀ s, s ∈ (evaluate strat now pf instruments).2.sell_symbols ↔
      ∃ p ∈ pf.positions, p.instrument.symbol = s ∧
        strat.context.targets.weekly_growth_target ≤ unrealised_return_pct p) ∧
    (∀ p ∈ pf.positions,
      unrealised_return_pct p = strat.context.targets.weekly_growth_target →
      p.instrument.symbol ∈ (evaluate strat now pf instruments).2.sell_symbols) := by
  have hmem : ∀ s, s ∈ (evaluate strat now pf instruments).2.sell_symbols ↔
      ∃ p ∈ pf.positions, p.instrument.symbol = s ∧
        strat.context.targets.weekly_growth_target ≤ unrealised_return_pct p := by
    intro s
    simp only [evaluate, h, not_true, Bool.not_true, Bool.false_eq_true,
      if_false, List.mem_map, List.mem_filter, decide_eq_true_eq]
    constructor
    · rintro ⟨p, ⟨hp, hle⟩, hs⟩
      exact ⟨p, hp, hs, hle⟩
    · rintro ⟨p, hp, hs, hle⟩
      exact ⟨p, ⟨hp, hle⟩, hs⟩
  refine ⟨hmem, ?_⟩
  intro p hp heq
  exact (hmem p.instrument.symbol).mpr ⟨p, hp, rfl, le_of_eq heq.symm⟩

/-- Witness for C7: with the default 5% target, a `100 → 105` position —
whose unrealised return is exactly the target — is sold. -/
theorem evaluate_sell_symbols_witness :
    "AAA" ∈ (evaluate ⟨⟨targets_sample, none⟩, fees_sample⟩ 0
      ⟨[⟨mk_inst "AAA" 105 0 0 0 none, 1, 100, 0⟩], 0, none⟩ []).2.sell_symbols := by
  exact (evaluate_sell_symbols ⟨⟨targets_sample, none⟩, fees_sample⟩ 0
      ⟨[⟨mk_inst "AAA" 105 0 0 0 none, 1, 100, 0⟩], 0, none⟩ [] rfl).2
    ⟨mk_inst "AAA" 105 0 0 0 none, 1, 100, 0⟩ (by simp)
    (by norm_num [unrealised_return_pct, mk_inst, targets_sample])

/-- C4: when `should_rebalance` is false, `evaluate` returns the empty
decision and leaves the strategy state (in particular `last_rebalance`)
untouched; `last_rebalance` is advanced to `now` only on the full
decision path; hence a second `evaluate` within one cadence window
returns an empty decision and does not advance `last_rebalance`. -/
theorem evaluate_cadence_gate (strat : MomentumGrowthStrategy) (now : Int)
    (pf : Portfolio) (instruments : List InstrumentSnapshot) :
    (should_rebalance strat now = false →
      evaluate strat now pf instruments
        = (strat, ⟨[], [], "Rebalansering ikke nødvendig ennå"⟩)) ∧
    (should_rebalance strat now = true →
      (evaluate strat now pf instruments).1
        = ⟨⟨strat.context.targets, some now⟩, strat.fees⟩) ∧
    (should_rebalance strat now = true →
      ∀ (now2 : Int) (pf2 : Portfolio) (inst2 : List InstrumentSnapshot),
        now2 - now < strat.context.targets.rebalance_cadence →
        evaluate (evaluate strat now pf instruments).1 now2 pf2 inst2
          = ((evaluate strat now pf instruments).1,
             ⟨[], [], "Rebalansering ikke nødvendig ennå"⟩)) := by
  refine ⟨?_, ?_, ?_⟩
  · intro h
    simp [evaluate, h]
  · intro h
    simp [evaluate, h]
  · intro h now2 pf2 inst2 hlt
    have h1 : (evaluate strat now pf instruments).1
        = ⟨⟨strat.context.targets, some now⟩, strat.fees⟩ := by
      simp [evaluate, h]
    rw [h1]
    have hnot : should_rebalance
        (⟨⟨strat.context.targets, some now⟩, strat.fees⟩ : MomentumGrowthStrategy)
        now2 = false := by
      simp [should_rebalance]
      omega
    simp [evaluate, hnot]

/-- Witness for C4: with a one-day cadence, a strategy that has never
rebalanced does a full evaluation at time 0, and a second call still at
time 0 returns the empty decision with the state unchanged; a strategy
whose last rebalance is at time 0 queried at time 0 is a no-op. -/
theorem evaluate_cadence_gate_witness :
    (evaluate ⟨⟨targets_sample, some 0⟩, fees_sample⟩ 0 ⟨[], 0, none⟩ []
      = (⟨⟨targets_sample, some 0⟩, fees_sample⟩,
         ⟨[], [], "Rebalansering ikke nødvendig ennå"⟩)) ∧
    (evaluate (evaluate ⟨⟨targets_sample, none⟩, fees_sample⟩ 0 ⟨[], 0, none⟩ []).1
        0 ⟨[], 0, none⟩ []
      = ((evaluate ⟨⟨targets_sample, none⟩, fees_sample⟩ 0 ⟨[], 0, none⟩ []).1,
         ⟨[], [], "Rebalansering ikke nødvendig ennå"⟩)) := by
  constructor
  · exact (evaluate_cadence_gate ⟨⟨targets_sample, some 0⟩, fees_sample⟩ 0
      ⟨[], 0, none⟩ []).1 (by norm_num [should_rebalance, targets_sample])
  · exact (evaluate_cadence_gate ⟨⟨targets_sample, none⟩, fees_sample⟩ 0
      ⟨[], 0, none⟩ []).2.2 rfl 0 ⟨[], 0, none⟩ []
      (by norm_num [targets_sample])

/-- The relation `growth_ge` is transitive. -/
theorem growth_ge_trans (a b c : InstrumentSnapshot) (hab : growth_ge a b)
    (hbc : growth_ge b c) : growth_ge a c := by
  simp only [growth_ge, decide_eq_true_eq] at *
  exact le_trans hbc hab

/-- The relation `growth_ge` is total. -/
theorem growth_ge_total (a b : InstrumentSnapshot) :
    (growth_ge a b || growth_ge b a) = true := by
  simp only [growth_ge, Bool.or_eq_true, decide_eq_true_eq]
  exact (le_total (expected_short_term_growth b) (expected_short_term_growth a))

/-- Unfolding of `sector_count` on a cons cell. -/
theorem sector_count_cons (s : String) (c : InstrumentSnapshot)
    (l : List InstrumentSnapshot) :
    sector_count s (c :: l)
      = sector_count s l + (if sector_key c = s then 1 else 0) := by
  simp [sector_count, List.countP_cons]

/-- The greedy loop admits a sublist of its input. -/
theorem diversify_go_sublist (m : ℕ) :
    ∀ (l : List InstrumentSnapshot) (counts : String → ℕ),
    (diversify_go m counts l).Sublist l := by
  intro l
  induction l with
  | nil => intro counts; simp [diversify_go]
  | cons c rest ih =>
    intro counts
    simp only [diversify_go]
    split
    · exact (ih counts).cons c
    · exact (ih _).cons₂ c

/-- Per-sector accounting of the greedy loop: each sector bucket admits
exactly the lesser of its number of occurrences and its remaining
capacity, so a rejected candidate consumes no capacity. -/
theorem diversify_go_count (m : ℕ) (s : String) :
    ∀ (l : List InstrumentSnapshot) (counts : String → ℕ),
    sector_count s (diversify_go m counts l)
      = min (sector_count s l) (m - counts s) := by
  intro l
  induction l with
  | nil => intro counts; simp [diversify_go, sector_count]
  | cons c rest ih =>
    intro counts
    simp only [diversify_go]
    by_cases hcap : m ≤ counts (sector_key c)
    · rw [if_pos hcap, ih counts, sector_count_cons]
      by_cases hs : sector_key c = s
      · subst hs
        omega
      · simp [hs]
    · rw [if_neg hcap, sector_count_cons, sector_count_cons, ih]
      by_cases hs : s = sector_key c
      · rw [if_pos hs, if_pos hs.symm]
        subst hs
        omega
      · rw [if_neg hs, if_neg (fun h => hs h.symm)]
        omega

/-- C5: `diversify_candidates` admits a subsequence of the stable
descending sort of its input, its output is descending in
`expected_short_term_growth`, each sector bucket (unknown sectors share
one bucket) ends up with exactly `min(count, max_per_sector)` admitted
candidates — so the cap is never exceeded and rejected candidates
consume no capacity — and the underlying sort is stable: any
already-descending subsequence of the input survives as a subsequence of
the sorted list, so ties keep their input order. -/
theorem diversify_candidates_spec (cs : List InstrumentSnapshot) (m : ℕ) :
    ((diversify_candidates cs m).Sublist (cs.mergeSort growth_ge)) ∧
    (List.Pairwise
      (fun a b => expected_short_term_growth b ≤ expected_short_term_growth a)
      (diversify_candidates cs m)) ∧
    (∀ s, sector_count s (diversify_candidates cs m)
        = min (sector_count s cs) m) ∧
    (∀ l : List InstrumentSnapshot,
      List.Pairwise (fun a b => growth_ge a b = true) l →
      l.Sublist cs → l.Sublist (cs.mergeSort growth_ge)) := by
  have hsub : (diversify_candidates cs m).Sublist (cs.mergeSort growth_ge) :=
    diversify_go_sublist m _ _
  refine ⟨hsub, ?_, ?_, ?_⟩
  · have hsorted := @List.sorted_mergeSort InstrumentSnapshot growth_ge
      growth_ge_trans growth_ge_total cs
    have := hsorted.sublist hsub
    exact this.imp (fun hab => by
      simpa [growth_ge, decide_eq_true_eq] using hab)
  · intro s
    have hperm : (cs.mergeSort growth_ge).Perm cs := List.mergeSort_perm cs _
    have hcnt : sector_count s (cs.mergeSort growth_ge) = sector_count s cs :=
      hperm.countP_eq _
    rw [diversify_candidates, diversify_go_count m s _ (fun _ => 0), hcnt]
    simp
  · intro l hl hsubl
    exact List.sublist_mergeSort growth_ge_trans growth_ge_total hl hsubl

/-- Witness for C5: three same-sector candidates with descending growth;
exactly two are admitted and one-element descending subsequences survive
the stable sort. -/
theorem diversify_candidates_spec_witness :
    (sector_count "tech"
      (diversify_candidates
        [mk_inst "AAA" 10 (3/100) (3/100) 0 (some "tech"),
         mk_inst "BBB" 10 (2/100) (2/100) 0 (some "tech"),
         mk_inst "CCC" 10 (1/100) (1/100) 0 (some "tech")] 2)
      = min (sector_count "tech"
        [mk_inst "AAA" 10 (3/100) (3/100) 0 (some "tech"),
         mk_inst "BBB" 10 (2/100) (2/100) 0 (some "tech"),
         mk_inst "CCC" 10 (1/100) (1/100) 0 (some "tech")]) 2) ∧
    ([mk_inst "BBB" 10 (2/100) (2/100) 0 (some "tech")].Sublist
      (([mk_inst "AAA" 10 (3/100) (3/100) 0 (some "tech"),
         mk_inst "BBB" 10 (2/100) (2/100) 0 (some "tech"),
         mk_inst "CCC" 10 (1/100) (1/100) 0 (some "tech")] :
         List InstrumentSnapshot).mergeSort growth_ge)) := by
  constructor
  · exact (diversify_candidates_spec _ 2).2.2.1 "tech"
  · exact (diversify_candidates_spec _ 2).2.2.2 _ (by simp)
      (by
        refine List.Sublist.cons _ ?_
        exact (List.sublist_cons_self _ _).cons₂ _)

/-- A candidate whose affordable quantity is not positive is skipped:
the loop continues on the remaining candidates with an unchanged state. -/
theorem purchases_go_skip_qty (est : ℚ → Int → Except PyError ℚ) (budget : ℚ)
    (now : Int) (c : InstrumentSnapshot) (rest : List InstrumentSnapshot)
    (st : CycleState) (hb : ¬ budget ≤ 0) (hp : c.last_price ≠ 0)
    (hq : purchase_quantity budget c.last_price ≤ 0) :
    purchases_go est budget now (c :: rest) st
      = purchases_go est budget now rest st := by
  simp only [purchases_go]
  rw [if_neg hb, if_neg hp, if_pos hq]

/-- A candidate whose fee-inclusive total cost exceeds the current
remaining cash is skipped, not aborted on: the loop continues on the
remaining candidates with an unchanged state. -/
theorem purchases_go_skip_cost (est : ℚ → Int → Except PyError ℚ) (budget : ℚ)
    (now : Int) (c : InstrumentSnapshot) (rest : List InstrumentSnapshot)
    (st : CycleState) (cost : ℚ) (hb : ¬ budget ≤ 0) (hp : c.last_price ≠ 0)
    (hq : ¬ purchase_quantity budget c.last_price ≤ 0)
    (hest : est c.last_price (purchase_quantity budget c.last_price) = Except.ok cost)
    (haff : st.portfolio.cash < cost) :
    purchases_go est budget now (c :: rest) st
      = purchases_go est budget now rest st := by
  simp only [purchases_go]
  rw [if_neg hb, if_neg hp, if_neg hq, hest]
  simp only [if_pos haff]

/-- A candidate with a positive affordable quantity and an affordable
fee-inclusive total cost is bought: order placed, cash debited by the
estimated cost, new position appended, BUY log entry appended. -/
theorem purchases_go_buy (est : ℚ → Int → Except PyError ℚ) (budget : ℚ)
    (now : Int) (c : InstrumentSnapshot) (rest : List InstrumentSnapshot)
    (st : CycleState) (cost : ℚ) (hb : ¬ budget ≤ 0) (hp : c.last_price ≠ 0)
    (hq : ¬ purchase_quantity budget c.last_price ≤ 0)
    (hest : est c.last_price (purchase_quantity budget c.last_price) = Except.ok cost)
    (haff : ¬ st.portfolio.cash < cost) :
    purchases_go est budget now (c :: rest) st
      = purchases_go est budget now rest
        ⟨⟨st.portfolio.positions
            ++ [⟨c, ((purchase_quantity budget c.last_price : Int) : ℚ), c.last_price, now⟩],
          st.portfolio.cash - cost, some now⟩,
         st.orders ++ [⟨c.symbol, ((purchase_quantity budget c.last_price : Int) : ℚ), "buy"⟩],
         st.trade_log ++ [⟨now, "BUY", c.symbol,
           ((purchase_quantity budget c.last_price : Int) : ℚ), c.last_price,
           "Strategivalg basert på forventet vekst"⟩]⟩ := by
  simp only [purchases_go]
  rw [if_neg hb, if_neg hp, if_neg hq, hest]
  simp only [if_neg haff]

/-- When the estimator call raises, the loop aborts at that candidate
with the state reached so far. -/
theorem purchases_go_raise (est : ℚ → Int → Except PyError ℚ) (budget : ℚ)
    (now : Int) (c : InstrumentSnapshot) (rest : List InstrumentSnapshot)
    (st : CycleState) (e : PyError) (hb : ¬ budget ≤ 0) (hp : c.last_price ≠ 0)
    (hq : ¬ purchase_quantity budget c.last_price ≤ 0)
    (hest : est c.last_price (purchase_quantity budget c.last_price) = Except.error e) :
    purchases_go est budget now (c :: rest) st = (st, some e) := by
  simp only [purchases_go]
  rw [if_neg hb, if_neg hp, if_neg hq, hest]

/-- The class `NordnetClient` does not define `estimate_trade_cost`. -/
theorem nordnet_lookup_trade_cost (fees : FeeStructure) :
    nordnet_lookup fees "estimate_trade_cost" = none := by
  simp [nordnet_lookup, nordnet_fee_estimators]

/-- Dispatching `estimate_trade_cost` on a `NordnetClient` raises
`AttributeError` at every argument pair. -/
theorem nordnet_estimate_trade_cost_raises (fees : FeeStructure) (price : ℚ)
    (quantity : Int) :
    nordnet_estimate_trade_cost fees price quantity
      = Except.error PyError.attributeError := by
  rw [nordnet_estimate_trade_cost, nordnet_lookup_trade_cost]

/-- Running the purchase loop against the `NordnetClient` dispatch
aborts with `AttributeError` at the first positive-quantity candidate,
leaving the state untouched. -/
theorem purchases_go_nordnet (fees : FeeStructure) (budget : ℚ) (now : Int) :
    ∀ (cs : List InstrumentSnapshot) (st : CycleState),
    ¬ budget ≤ 0 →
    (∀ c ∈ cs, c.last_price ≠ 0) →
    (∃ c ∈ cs, 0 < purchase_quantity budget c.last_price) →
    purchases_go (nordnet_estimate_trade_cost fees) budget now cs st
      = (st, some PyError.attributeError) := by
  intro cs
  induction cs with
  | nil =>
    intro st _ _ hex
    simp at hex
  | cons c rest ih =>
    intro st hb hp hex
    by_cases hq : purchase_quantity budget c.last_price ≤ 0
    · rw [purchases_go_skip_qty _ _ _ _ _ _ hb (hp c (List.mem_cons_self c rest)) hq]
      apply ih st hb (fun x hx => hp x (List.mem_cons_of_mem c hx))
      rcases hex with ⟨x, hx, hxq⟩
      rcases List.mem_cons.mp hx with h1 | h2
      · subst h1; omega
      · exact ⟨x, h2, hxq⟩
    · exact purchases_go_raise _ _ _ _ _ _ _ hb
        (hp c (List.mem_cons_self c rest)) hq
        (nordnet_estimate_trade_cost_raises fees _ _)

/-- C3: `NordnetClient` defines `estimate_trade_fee`,
`estimate_total_buy_cost` and `estimate_net_sell_proceeds` but no
`estimate_trade_cost`, so as soon as buy execution reaches a candidate
with a positive affordable quantity, the `estimate_trade_cost` dispatch
raises `AttributeError`: the cycle aborts with no buy order placed, no
cash debited and no position or log entry added. -/
theorem execute_purchases_attribute_error (fees : FeeStructure) (pf : Portfolio)
    (cs : List InstrumentSnapshot) (now : Int)
    (hcash : 0 < pf.cash)
    (hprices : ∀ c ∈ cs, c.last_price ≠ 0)
    (hq : ∃ c ∈ cs, 0 < purchase_quantity (per_trade_budget pf.cash cs.length) c.last_price) :
    (execute_purchases (nordnet_estimate_trade_cost fees) now cs pf
        = (⟨pf, [], []⟩, some PyError.attributeError)) ∧
    nordnet_lookup fees "estimate_trade_cost" = none ∧
    (nordnet_lookup fees "estimate_trade_fee").isSome = true ∧
    (nordnet_lookup fees "estimate_total_buy_cost").isSome = true ∧
    (nordnet_lookup fees "estimate_net_sell_proceeds").isSome = true := by
  have hbudget : 0 < per_trade_budget pf.cash cs.length := by
    apply div_pos hcash
    have : 1 ≤ max cs.length 1 := le_max_right _ _
    exact_mod_cast Nat.lt_of_lt_of_le Nat.zero_lt_one this
  refine ⟨?_, nordnet_lookup_trade_cost fees, ?_, ?_, ?_⟩
  · rw [execute_purchases, if_neg (not_le.mpr hcash)]
    exact purchases_go_nordnet fees _ now cs _ (not_le.mpr hbudget) hprices hq
  · simp [nordnet_lookup, nordnet_fee_estimators]
  · simp [nordnet_lookup, nordnet_fee_estimators]
  · simp [nordnet_lookup, nordnet_fee_estimators]

/-- Witness for C3: one candidate priced 100 with cash 1000 triggers the
`AttributeError` abort with nothing executed. -/
theorem execute_purchases_attribute_error_witness :
    execute_purchases (nordnet_estimate_trade_cost fees_sample) 0
        [mk_inst "AAA" 100 0 0 0 none] ⟨[], 1000, none⟩
      = (⟨⟨[], 1000, none⟩, [], []⟩, some PyError.attributeError) := by
  exact (execute_purchases_attribute_error fees_sample ⟨[], 1000, none⟩
      [mk_inst "AAA" 100 0 0 0 none] 0
      (by norm_num)
      (by intro c hc; simp at hc; subst hc; norm_num [mk_inst])
      ⟨mk_inst "AAA" 100 0 0 0 none, by simp,
        by norm_num [purchase_quantity, per_trade_budget, mk_inst]⟩).1

/-- C1: buy-execution sizing.  With cash 1000 and two candidates priced
100 and 300, the per-candidate budget is `1000 / 2 = 500`; the first
candidate is bought in quantity `floor(500/100) = 5` and the second in
quantity `floor(500/300) = 1`, provided each fee-inclusive total cost is
at most the cash remaining at its purchase; and in general the quantity
is `floor(budget/price)` (clamped at 0), candidates with nonpositive
quantity are skipped, affordability is checked against current remaining
cash with unaffordable candidates skipped rather than aborting, and the
whole buy step is a no-op when available cash ≤ 0. -/
theorem execute_purchases_sizing (f : ℚ → Int → ℚ) (c1 c2 : InstrumentSnapshot)
    (pf : Portfolio) (now : Int)
    (hp1 : c1.last_price = 100) (hp2 : c2.last_price = 300)
    (hcash : pf.cash = 1000)
    (hfee1 : f 100 5 ≤ 1000) (hfee2 : f 300 1 ≤ 1000 - f 100 5) :
    ((execute_purchases (pure_est f) now [c1, c2] pf).1.orders
        = [⟨c1.symbol, 5, "buy"⟩, ⟨c2.symbol, 1, "buy"⟩]) ∧
    ((execute_purchases (pure_est f) now [c1, c2] pf).1.portfolio.cash
        = 1000 - f 100 5 - f 300 1) ∧
    ((execute_purchases (pure_est f) now [c1, c2] pf).2 = none) ∧
    (per_trade_budget 1000 2 = 500) ∧
    (purchase_quantity 500 100 = 5 ∧ purchase_quantity 500 300 = 1) ∧
    (∀ pf' : Portfolio, pf'.cash ≤ 0 →
      execute_purchases (pure_est f) now [c1, c2] pf' = (⟨pf', [], []⟩, none)) ∧
    (∀ (budget : ℚ) (c : InstrumentSnapshot) (rest : List InstrumentSnapshot)
        (st : CycleState), ¬ budget ≤ 0 → c.last_price ≠ 0 →
      purchase_quantity budget c.last_price ≤ 0 →
      purchases_go (pure_est f) budget now (c :: rest) st
        = purchases_go (pure_est f) budget now rest st) ∧
    (∀ (budget : ℚ) (c : InstrumentSnapshot) (rest : List InstrumentSnapshot)
        (st : CycleState), ¬ budget ≤ 0 → c.last_price ≠ 0 →
      ¬ purchase_quantity budget c.last_price ≤ 0 →
      st.portfolio.cash < f c.last_price (purchase_quantity budget c.last_price) →
      purchases_go (pure_est f) budget now (c :: rest) st
        = purchases_go (pure_est f) budget now rest st) := by
  have hq1 : purchase_quantity 500 (100 : ℚ) = 5 := by
    norm_num [purchase_quantity]
  have hq2 : purchase_quantity 500 (300 : ℚ) = 1 := by
    norm_num [purchase_quantity]
  have hrun : execute_purchases (pure_est f) now [c1, c2] pf
      = purchases_go (pure_est f) 500 now [c1, c2] ⟨pf, [], []⟩ := by
    rw [execute_purchases, if_neg (by rw [hcash]; norm_num)]
    have : per_trade_budget pf.cash ([c1, c2] : List InstrumentSnapshot).length = 500 := by
      rw [hcash]
      norm_num [per_trade_budget]
    rw [this]
  have hstep1 : purchases_go (pure_est f) 500 now [c1, c2] ⟨pf, [], []⟩
      = purchases_go (pure_est f) 500 now [c2]
        ⟨⟨pf.positions ++ [⟨c1, ((5 : ℤ) : ℚ), 100, now⟩], pf.cash - f 100 5, some now⟩,
         [⟨c1.symbol, ((5 : ℤ) : ℚ), "buy"⟩],
         [⟨now, "BUY", c1.symbol, ((5 : ℤ) : ℚ), 100,
           "Strategivalg basert på forventet vekst"⟩]⟩ := by
    have h := purchases_go_buy (pure_est f) 500 now c1 [c2] ⟨pf, [], []⟩
      (f 100 5) (by norm_num) (by rw [hp1]; norm_num)
      (by rw [hp1, hq1]; norm_num)
      (by rw [hp1, hq1]; rfl)
      (by
        show ¬ pf.cash < f 100 5
        rw [hcash]
        exact not_lt.mpr hfee1)
    rw [hp1, hq1] at h
    exact h
  have hstep2 : purchases_go (pure_est f) 500 now [c2]
        ⟨⟨pf.positions ++ [⟨c1, ((5 : ℤ) : ℚ), 100, now⟩], pf.cash - f 100 5, some now⟩,
         [⟨c1.symbol, ((5 : ℤ) : ℚ), "buy"⟩],
         [⟨now, "BUY", c1.symbol, ((5 : ℤ) : ℚ), 100,
           "Strategivalg basert på forventet vekst"⟩]⟩
      = (⟨⟨(pf.positions ++ [⟨c1, ((5 : ℤ) : ℚ), 100, now⟩]) ++ [⟨c2, ((1 : ℤ) : ℚ), 300, now⟩],
           pf.cash - f 100 5 - f 300 1, some now⟩,
          [⟨c1.symbol, ((5 : ℤ) : ℚ), "buy"⟩, ⟨c2.symbol, ((1 : ℤ) : ℚ), "buy"⟩],
          [⟨now, "BUY", c1.symbol, ((5 : ℤ) : ℚ), 100,
            "Strategivalg basert på forventet vekst"⟩,
           ⟨now, "BUY", c2.symbol, ((1 : ℤ) : ℚ), 300,
            "Strategivalg basert på forventet vekst"⟩]⟩, none) := by
    have h := purchases_go_buy (pure_est f) 500 now c2 []
      ⟨⟨pf.positions ++ [⟨c1, ((5 : ℤ) : ℚ), 100, now⟩], pf.cash - f 100 5, some now⟩,
       [⟨c1.symbol, ((5 : ℤ) : ℚ), "buy"⟩],
       [⟨now, "BUY", c1.symbol, ((5 : ℤ) : ℚ), 100,
         "Strategivalg basert på forventet vekst"⟩]⟩
      (f 300 1) (by norm_num) (by rw [hp2]; norm_num)
      (by rw [hp2, hq2]; norm_num)
      (by rw [hp2, hq2]; rfl)
      (by
        show ¬ pf.cash - f 100 5 < f 300 1
        rw [hcash]
        exact not_lt.mpr hfee2)
    rw [hp2, hq2] at h
    exact h
  have hfinal : execute_purchases (pure_est f) now [c1, c2] pf
      = (⟨⟨(pf.positions ++ [⟨c1, ((5 : ℤ) : ℚ), 100, now⟩]) ++ [⟨c2, ((1 : ℤ) : ℚ), 300, now⟩],
           pf.cash - f 100 5 - f 300 1, some now⟩,
          [⟨c1.symbol, ((5 : ℤ) : ℚ), "buy"⟩, ⟨c2.symbol, ((1 : ℤ) : ℚ), "buy"⟩],
          [⟨now, "BUY", c1.symbol, ((5 : ℤ) : ℚ), 100,
            "Strategivalg basert på forventet vekst"⟩,
           ⟨now, "BUY", c2.symbol, ((1 : ℤ) : ℚ), 300,
            "Strategivalg basert på forventet vekst"⟩]⟩, none) := by
    rw [hrun, hstep1, hstep2]
  refine ⟨?_, ?_, ?_, by norm_num [per_trade_budget], ⟨hq1, hq2⟩, ?_, ?_, ?_⟩
  · rw [hfinal]
    norm_num
  · rw [hfinal]
    dsimp only
    rw [hcash]
  · rw [hfinal]
  · intro pf' h
    rw [execute_purchases, if_pos h]
  · intro budget c rest st hb hpz hq
    exact purchases_go_skip_qty _ _ _ _ _ _ hb hpz hq
  · intro budget c rest st hb hpz hq haff
    exact purchases_go_skip_cost _ _ _ _ _ _ _ hb hpz hq rfl haff

/-- Witness for C1: with the default fee structure's estimator as total
cost, cash 1000 and candidates priced 100 and 300 buy 5 and 1 units. -/
theorem execute_purchases_sizing_witness :
    (execute_purchases
        (pure_est (fun price quantity =>
          estimate_total_buy_cost fees_sample price (quantity : ℚ))) 0
        [mk_inst "AAA" 100 0 0 0 none, mk_inst "BBB" 300 0 0 0 none]
        ⟨[], 1000, none⟩).1.orders
      = [⟨(mk_inst "AAA" 100 0 0 0 none).symbol, 5, "buy"⟩,
         ⟨(mk_inst "BBB" 300 0 0 0 none).symbol, 1, "buy"⟩] := by
  exact (execute_purchases_sizing
      (fun price quantity => estimate_total_buy_cost fees_sample price (quantity : ℚ))
      (mk_inst "AAA" 100 0 0 0 none) (mk_inst "BBB" 300 0 0 0 none)
      ⟨[], 1000, none⟩ 0
      (by norm_num [mk_inst]) (by norm_num [mk_inst]) (by norm_num)
      (by norm_num [estimate_total_buy_cost, estimate_trade_fee, fees_sample])
      (by norm_num [estimate_total_buy_cost, estimate_trade_fee, fees_sample])).1

end Salgsmester
